import Mathlib

/-!
Shallow embedding of the pymeasure instrument drivers under
src/pymeasure/instruments (etm_l303sp.py, rigol_dho800.py, rigol_dp900.py,
rigol_dg1022u.py, fluke8808a.py, victor_8045m.py, it6322a.py) along with a
model of the property-descriptor engine they instantiate.

The descriptor engine itself (Instrument.control, the validators module,
value-map encoding and channel templating) is imported from the instrument
control library and is not part of the source tree; the specification
describes its semantics in detail, so those pieces are modelled from the
spec and marked as such.  All driver-level data (value maps, bounds,
command templates, default arguments) are transcribed from the source
files.
-/

/-- Python values occurring in the drivers' value maps and responses:
booleans, integers, strings, and (rational-modelled) floats. -/
inductive PyVal where
  | bool (b : Bool)
  | int (n : Int)
  | str (s : String)
  | rat (q : ℚ)
  deriving DecidableEq

/-- A value map as declared in a driver: the Python dict as an association
list in declaration order, logical value first, wire token second. -/
abbrev ValueMap := List (PyVal × PyVal)

/-- Modelled from the spec: the set direction of a value map, logical value
to wire token ("set applies logical→wire"); a Python dict lookup over the
declared keys. -/
def encodeTok (m : ValueMap) (k : PyVal) : Option PyVal :=
  (m.find? (fun p => decide (p.1 = k))).map (fun p => p.2)

/-- Modelled from the spec: the get direction of a value map, wire token
back to logical value ("get applies wire→logical").  The inverse dict is
built by inverting the declared pairs, a later declaration overwriting an
earlier one with the same wire token (Python dict-comprehension
semantics), so the lookup scans the reversed declaration list. -/
def decodeTok (m : ValueMap) (t : PyVal) : Option PyVal :=
  (m.reverse.find? (fun p => decide (p.2 = t))).map (fun p => p.1)

/-- value map of VoltageChannel.display in rigol_dho800.py:
values = (True: 1, "on": 1, "ON": 1, False: 0, "off": 0, "OFF": 0). -/
def display_values : ValueMap :=
  [(.bool true, .int 1), (.str "on", .int 1), (.str "ON", .int 1),
   (.bool false, .int 0), (.str "off", .int 0), (.str "OFF", .int 0)]

/-- value map of L303SP.output_enabled in etm_l303sp.py:
values = (True: "ON", False: "OFF"). -/
def output_enabled_values : ValueMap :=
  [(.bool true, .str "ON"), (.bool false, .str "OFF")]

/-- The declared logical keys (domain) of a value map. -/
def mapKeys (m : ValueMap) : List PyVal := m.map (fun p => p.1)

/-- The declared wire tokens (range) of a value map. -/
def mapToks (m : ValueMap) : List PyVal := m.map (fun p => p.2)

/-- Modelled from the spec: strict_range(value, [lo, hi]) fails — returns
none, standing for a ValidationError — unless lo <= value <= hi, and
otherwise returns the value unchanged. -/
def strict_range (value lo hi : ℚ) : Option ℚ :=
  if lo ≤ value ∧ value ≤ hi then some value else none

/-- Modelled from the spec: truncated_range clamps the input to the
nearest bound instead of failing, returning the adjusted value. -/
def truncated_range (value lo hi : ℚ) : Option ℚ :=
  if value < lo then some lo
  else if hi < value then some hi
  else some value

/-- The set failure kind of the spec's error taxonomy: the value was
rejected before transmission. -/
inductive SetFail where
  | validationError
  deriving DecidableEq

/-- A transmitted command, represented as the set-command template paired
with the substituted numeric value. -/
abbrev Cmd := String × ℚ

/-- Modelled from the spec: the descriptor write path.  The validator runs
first; a ValidationError aborts the set, the command is never sent and the
transport trace is unchanged; otherwise the command formatted from the
template and the validated value is appended to the trace. -/
def applySet (validator : ℚ → Option ℚ) (tmpl : String) (sent : List Cmd)
    (v : ℚ) : Option SetFail × List Cmd :=
  match validator v with
  | none => (some .validationError, sent)
  | some w => (none, sent ++ [(tmpl, w)])

/-- voltage_setpoint of L303SP in etm_l303sp.py: validator=strict_range,
values=[0, 30]. -/
def l303sp_voltage_bounds : ℚ × ℚ := (0, 30)

/-- The set-command template of L303SP.voltage_setpoint. -/
def l303sp_voltage_set_cmd : String := "VOLT %g"

/-- The write path of L303SP.voltage_setpoint: strict_range over [0, 30]
guarding the "VOLT %g" command. -/
def l303sp_set_voltage (sent : List Cmd) (v : ℚ) : Option SetFail × List Cmd :=
  applySet (fun x => strict_range x l303sp_voltage_bounds.1 l303sp_voltage_bounds.2)
    l303sp_voltage_set_cmd sent v

/-- scale of VoltageChannel in rigol_dho800.py: validator=truncated_range,
values=[500e-6, 10]. -/
def dho800_scale_bounds : ℚ × ℚ := (1 / 2000, 10)

/-- A channel command template split into literal tokens and the channel
placeholder, as the engine's formatter sees it. -/
inductive TemplTok where
  | lit (s : String)
  | ch
  deriving DecidableEq

/-- Renders a token list back to the raw template text, the placeholder
printed as its source spelling. -/
def renderRaw : List TemplTok → String
  | [] => ""
  | .lit s :: ts => s ++ renderRaw ts
  | .ch :: ts => "{ch}" ++ renderRaw ts

/-- Modelled from the spec: formatting a channel command template with
channel index n substitutes n for every placeholder token and leaves every
literal token unchanged. -/
def formatTempl (n : Nat) : List TemplTok → String
  | [] => ""
  | .lit s :: ts => s ++ formatTempl n ts
  | .ch :: ts => toString n ++ formatTempl n ts

/-- The get template of VoltageChannel.output_enabled in rigol_dp900.py. -/
def dp900_output_enabled_get : List TemplTok := [.lit "OUTP:STAT? CH", .ch]

/-- The set template of VoltageChannel.output_enabled in rigol_dp900.py. -/
def dp900_output_enabled_set : List TemplTok :=
  [.lit "OUTP:STAT CH", .ch, .lit ", %d"]

/-- The get template of VoltageChannel.voltage_setpoint in it6322a.py. -/
def it6322a_voltage_get : List TemplTok := [.lit "APPL CH", .ch, .lit "; VOLT?"]

/-- The set template of VoltageChannel.voltage_setpoint in it6322a.py. -/
def it6322a_voltage_set : List TemplTok := [.lit "APPL CH", .ch, .lit "; VOLT %g"]

/-- The opening-brace character of the placeholder spelling. -/
def lbraceChar : Char := Char.ofNat 123

/-- The closing-brace character of the placeholder spelling. -/
def rbraceChar : Char := Char.ofNat 125

/-- Whether the character list starts with the four characters of the
channel placeholder. -/
def startsWithCh : List Char → Bool
  | a :: b :: c :: d :: _ =>
    a = lbraceChar && b = 'c' && c = 'h' && d = rbraceChar
  | _ => false

/-- Counts the positions at which the channel placeholder starts; the
placeholder cannot overlap itself, so this is its occurrence count. -/
def countChList : List Char → Nat
  | [] => 0
  | a :: rest => (if startsWithCh (a :: rest) then 1 else 0) + countChList rest

/-- The number of occurrences of the channel placeholder in a raw template
string. -/
def countCh (s : String) : Nat := countChList s.data

/-- Modelled from the spec: a dynamic descriptor's per-instance bounds,
one entry per instance index, each initialized from the class-level
default. -/
def initialBounds (classDefault : ℚ × ℚ) : Nat → ℚ × ℚ := fun _ => classDefault

/-- Modelled from the spec: rebinding the allowed_values bounds on one
instance updates only that instance's entry, leaving every other entry and
the class-level default untouched. -/
def overrideBounds (bounds : Nat → ℚ × ℚ) (i : Nat) (b : ℚ × ℚ) :
    Nat → ℚ × ℚ :=
  fun j => if j = i then b else bounds j

/-- The class-level default bounds of VoltageChannel.voltage_setpoint in
rigol_dp900.py (values=[0, 30], dynamic=True); etm_l303sp.py declares the
same default for L303SP.voltage_setpoint. -/
def dp900_voltage_default : ℚ × ℚ := (0, 30)

/-- Validation of a candidate value against a bounds pair with
strict_range, as the dynamic descriptors do. -/
def validateAt (b : ℚ × ℚ) (v : ℚ) : Option ℚ := strict_range v b.1 b.2

/-- The read failure kind of the spec's error taxonomy: an unrecognized
wire token on read-back. -/
inductive GetError where
  | lookupError (token : String)
  deriving DecidableEq

/-- The read-side declarative fields of a descriptor. -/
structure GetSpec where
  get_process : Option (String → PyVal) := none
  value_map : Option ValueMap := none
  cast : Option (String → PyVal) := none

/-- The wire spelling of a token, for matching a raw response against a
value map's wire side. -/
def wireStr : PyVal → String
  | .bool b => if b then "True" else "False"
  | .int n => toString n
  | .str s => s
  | .rat q => toString q

/-- Modelled from the spec: read post-processing applies, in mutually
exclusive order, get_process if supplied; else the value map's reverse
lookup if supplied, failing with a LookupError-kind condition on an
unrecognized wire token; else cast if supplied; else the raw string is
returned. -/
def postProcess (g : GetSpec) (raw : String) : Except GetError PyVal :=
  match g.get_process with
  | some f => .ok (f raw)
  | none =>
    match g.value_map with
    | some m =>
      match (m.reverse.find? (fun p => decide (wireStr p.2 = raw))).map (fun p => p.1) with
      | some v => .ok v
      | none => .error (.lookupError raw)
    | none =>
      match g.cast with
      | some c => .ok (c raw)
      | none => .ok (.str raw)

/-- The value map of Victor8045M.dcv_range in victor_8045m.py:
values = (0.05: 1, 0.5: 2, 5: 3, 50: 4, 500: 5, 1000: 6). -/
def dcv_range_values : ValueMap :=
  [(.rat (1 / 20), .int 1), (.rat (1 / 2), .int 2), (.rat 5, .int 3),
   (.rat 50, .int 4), (.rat 500, .int 5), (.rat 1000, .int 6)]

/-- Removal of every occurrence of a character, the effect of Python's
replace of a one-character pattern by the empty string. -/
def removeChar (c : Char) (cs : List Char) : List Char :=
  cs.filter (fun a => !(a = c))

/-- Python str.strip(): drop leading and trailing whitespace. -/
def stripChars (cs : List Char) : List Char :=
  ((cs.dropWhile Char.isWhitespace).reverse.dropWhile Char.isWhitespace).reverse

/-- The get_process of Victor8045M.dcv_range in victor_8045m.py:
lambda v: v.replace('V', '').strip(). -/
def dcv_range_get_process (v : String) : PyVal :=
  .str (String.mk (stripChars (removeChar 'V' v.data)))

/-- The read-side fields of Victor8045M.dcv_range: both get_process and a
value map are declared. -/
def dcv_range_spec : GetSpec :=
  { get_process := some dcv_range_get_process, value_map := some dcv_range_values }

/-- The read-side fields of L303SP.ovp_tripped in etm_l303sp.py: only a
value map (True: "ON", False: "OFF") is declared. -/
def ovp_tripped_spec : GetSpec :=
  { value_map := some [(.bool true, .str "ON"), (.bool false, .str "OFF")] }

/-- The read-side fields of Fluke8808A.id in fluke8808a.py: only cast=str
is declared. -/
def fluke_id_spec : GetSpec := { cast := some (fun s => .str s) }

/-- save_screen of RigolDHO800 in rigol_dho800.py: after reading the raw
response bytes, header_skips = int(chr(raw_data[1])) + 2 is computed and
the bytes after the first header_skips are written to the output file.
The result models the byte string written; none models the IndexError on
a response shorter than two bytes and the ValueError when byte 1 is not an
ASCII digit. -/
def save_screen_written (raw : List Nat) : Option (List Nat) :=
  match raw.get? 1 with
  | none => none
  | some b => if 48 ≤ b ∧ b ≤ 57 then some (raw.drop (b - 48 + 2)) else none

/-- The eleven header bytes of the worked TMC example "#9001152054" from
the comment in save_screen. -/
def tmc_example_header : List Nat := [35, 57, 48, 48, 49, 49, 53, 50, 48, 53, 52]

/-- The connection state the constructors establish, reduced to the field
the claims inspect. -/
structure InstrumentCfg where
  name : String
  deriving DecidableEq

/-- The constructor of IT6322A in it6322a.py: the name parameter defaults
to "Rigol DG1022U" and is passed through to the base instrument. -/
def it6322a_init (name : Option String) : InstrumentCfg :=
  { name := name.getD "Rigol DG1022U" }

/-- Whether the second character list is a prefix of the first. -/
def startsWithList : List Char → List Char → Bool
  | _, [] => true
  | [], _ :: _ => false
  | a :: as, b :: bs => a = b && startsWithList as bs

/-- Whether the pattern occurs as a contiguous sublist. -/
def containsList (pat : List Char) : List Char → Bool
  | [] => pat.isEmpty
  | a :: rest => startsWithList (a :: rest) pat || containsList pat rest

/-- Whether a pattern occurs as a substring. -/
def containsPat (s pat : String) : Bool := containsList pat.data s.data

/-- The transport failure kind: the read raised instead of returning a
line. -/
inductive TransportFail where
  | timeout
  deriving DecidableEq

/-- Modelled from the transport contract: read() consumes the next pending
reply line, failing when none arrives. -/
def transportRead : List String → Except TransportFail (String × List String)
  | [] => .error .timeout
  | l :: rest => .ok (l, rest)

/-- check_set_errors of Fluke8808A in fluke8808a.py: reads one reply,
strips and logs it, re-raises a failed read, and otherwise returns the
empty error list.  The result pairs the returned error list with the
remaining pending replies. -/
def fluke_check_set_errors (pending : List String) :
    Except TransportFail (List String × List String) :=
  match transportRead pending with
  | .error e => .error e
  | .ok (reply, rest) =>
    let _stripped := reply.trim
    .ok ([], rest)

/-- check_get_errors of Fluke8808A in fluke8808a.py: reads one reply, logs
it, re-raises a failed read, and otherwise returns the empty error
list. -/
def fluke_check_get_errors (pending : List String) :
    Except TransportFail (List String × List String) :=
  match transportRead pending with
  | .error e => .error e
  | .ok (_reply, rest) => .ok ([], rest)

/-- C1 counterexample: the value map of VoltageChannel.display in
rigol_dho800.py maps the three logical values True, "on" and "ON" to the
single wire token 1, so decoding cannot undo encoding: the concrete
reverse lookup sends encode(True) = 1 back to "ON", not True, and no
decoding function whatsoever can satisfy decode(encode(v)) = v on the
map's whole domain. -/
theorem rigol_dho800_display_not_invertible :
    decodeTok display_values (PyVal.int 1) = some (.str "ON") ∧
    encodeTok display_values (.bool true) = some (.int 1) ∧
    (encodeTok display_values (.bool true)).bind (decodeTok display_values)
      ≠ some (.bool true) ∧
    ¬ ∃ d : PyVal → Option PyVal, ∀ k ∈ mapKeys display_values,
        (encodeTok display_values k).bind d = some k := by
  refine ⟨by decide, by decide, by decide, ?_⟩
  rintro ⟨d, hd⟩
  have h1 := hd (.bool true) (by decide)
  have h2 := hd (.str "ON") (by decide)
  rw [show encodeTok display_values (.bool true) = some (.int 1) from by decide] at h1
  rw [show encodeTok display_values (.str "ON") = some (.int 1) from by decide] at h2
  rw [Option.some_bind] at h1 h2
  rw [h1] at h2
  exact absurd (Option.some_injective _ h2) (by decide)

/-- C1 amended: for a descriptor whose value map is injective on its
declared keys, such as L303SP.output_enabled in etm_l303sp.py, both round
trips hold: decode(encode(v)) = v for every logical value in the domain
and encode(decode(t)) = t for every wire token in the range.  The value
map of VoltageChannel.display in rigol_dho800.py is not injective, so only
its wire-token round trip encode(decode(t)) = t holds, and the logical
round trip fails. -/
theorem value_map_roundtrips :
    (∀ k ∈ mapKeys output_enabled_values,
        (encodeTok output_enabled_values k).bind (decodeTok output_enabled_values)
          = some k) ∧
    (∀ t ∈ mapToks output_enabled_values,
        (decodeTok output_enabled_values t).bind (encodeTok output_enabled_values)
          = some t) ∧
    (∀ t ∈ mapToks display_values,
        (decodeTok display_values t).bind (encodeTok display_values) = some t) ∧
    ¬ (∀ k ∈ mapKeys display_values,
        (encodeTok display_values k).bind (decodeTok display_values) = some k) := by
  decide

/-- Helper: on a response whose second byte is the ASCII digit for N, the
bytes written by save_screen are the response after the 2 + N header
bytes. -/
theorem save_screen_written_digit (N : Nat) (rest : List Nat) (hN : N ≤ 9) :
    save_screen_written (35 :: (48 + N) :: rest) = some (rest.drop N) := by
  have hcond : 48 ≤ 48 + N ∧ 48 + N ≤ 57 := ⟨Nat.le_add_right _ _, by omega⟩
  have hsub : 48 + N - 48 + 2 = N + 2 := by omega
  show (if 48 ≤ 48 + N ∧ 48 + N ≤ 57
        then some ((35 :: (48 + N) :: rest).drop (48 + N - 48 + 2))
        else none) = some (rest.drop N)
  rw [if_pos hcond, hsub]
  rfl

/-- C2: for every binary-block response whose second byte is the ASCII
digit N, save_screen writes exactly the bytes after the first 2 + N; for
a response beginning with the header bytes of "#9001152054" the first 11
bytes are excluded and exactly the payload is written. -/
theorem c2_save_screen_skips_header (N : Nat) (rest payload : List Nat)
    (hN : N ≤ 9) :
    save_screen_written (35 :: (48 + N) :: rest)
      = some ((35 :: (48 + N) :: rest).drop (2 + N)) ∧
    save_screen_written (tmc_example_header ++ payload) = some payload := by
  constructor
  · rw [save_screen_written_digit N rest hN]
    rw [show 2 + N = N + 2 from by omega]
    rfl
  · show save_screen_written
      (35 :: (48 + 9) :: ([48, 48, 49, 49, 53, 50, 48, 53, 52] ++ payload))
        = some payload
    rw [save_screen_written_digit 9 _ (by omega)]
    exact congrArg some (List.drop_left [48, 48, 49, 49, 53, 50, 48, 53, 52] payload)

/-- C2 witness: the worked example at N = 9 with a three-byte payload. -/
theorem c2_save_screen_skips_header_witness :
    save_screen_written (35 :: (48 + 9) :: ([48, 48, 49, 49, 53, 50, 48, 53, 52] ++ [1, 2, 3]))
      = some ((35 :: (48 + 9) :: ([48, 48, 49, 49, 53, 50, 48, 53, 52] ++ [1, 2, 3])).drop (2 + 9)) ∧
    save_screen_written (tmc_example_header ++ [1, 2, 3]) = some [1, 2, 3] :=
  c2_save_screen_skips_header 9 ([48, 48, 49, 49, 53, 50, 48, 53, 52] ++ [1, 2, 3])
    [1, 2, 3] (by omega)

/-- C3: setting L303SP.voltage_setpoint to 30 passes strict_range [0, 30]
and appends the VOLT command carrying 30 to the transport trace; setting
30.1 fails with ValidationError and the trace is unchanged; in general a
set through any validator that rejects the value transmits nothing and
leaves the trace exactly as it was. -/
theorem c3_strict_set_atomicity (sent : List Cmd) (validator : ℚ → Option ℚ)
    (tmpl : String) (v : ℚ) (hfail : validator v = none) :
    l303sp_set_voltage sent 30 = (none, sent ++ [("VOLT %g", 30)]) ∧
    l303sp_set_voltage sent (301 / 10) = (some .validationError, sent) ∧
    applySet validator tmpl sent v = (some .validationError, sent) := by
  refine ⟨?_, ?_, ?_⟩
  · have h30 : strict_range 30 l303sp_voltage_bounds.1 l303sp_voltage_bounds.2
        = some 30 := by
      rw [show l303sp_voltage_bounds = ((0 : ℚ), (30 : ℚ)) from rfl]
      simp only [strict_range]
      norm_num
    simp [l303sp_set_voltage, applySet, h30, l303sp_voltage_set_cmd]
  · have hout : strict_range (301 / 10) l303sp_voltage_bounds.1
        l303sp_voltage_bounds.2 = none := by
      rw [show l303sp_voltage_bounds = ((0 : ℚ), (30 : ℚ)) from rfl]
      simp only [strict_range]
      norm_num
    simp [l303sp_set_voltage, applySet, hout]
  · simp [applySet, hfail]

/-- C3 witness: the set pipeline at 30 and 30.1 over an empty trace, with
strict_range [0, 30] as the rejecting validator. -/
theorem c3_strict_set_atomicity_witness :
    l303sp_set_voltage [] 30 = (none, [("VOLT %g", 30)]) ∧
    l303sp_set_voltage [] (301 / 10) = (some .validationError, []) ∧
    applySet (fun x => strict_range x 0 30) "VOLT %g" [] (301 / 10)
      = (some .validationError, []) := by
  have h := c3_strict_set_atomicity [] (fun x => strict_range x 0 30) "VOLT %g"
    (301 / 10) (by simp only [strict_range]; norm_num)
  simpa using h

/-- C4: read post-processing is mutually exclusive: with get_process
supplied it alone is applied, so Victor8045M.dcv_range (which also
declares a value map) strips the V suffix instead of reverse-mapping the
token, while the descriptor with only a value map reverse-looks-up the
token and fails with a LookupError-kind error on an unrecognized one, and
a descriptor with only cast coerces the raw string. -/
theorem c4_get_postprocessing (g : GetSpec) (f : String → PyVal) (raw : String)
    (hf : g.get_process = some f) :
    postProcess g raw = .ok (f raw) ∧
    postProcess dcv_range_spec "5V" = .ok (.str "5") ∧
    postProcess dcv_range_spec "5" = .ok (.str "5") ∧
    postProcess { dcv_range_spec with get_process := none } "5"
      = .ok (.rat 500) ∧
    PyVal.str "5" ≠ PyVal.rat 500 ∧
    postProcess ovp_tripped_spec "ON" = .ok (.bool true) ∧
    postProcess ovp_tripped_spec "XYZ" = .error (.lookupError "XYZ") ∧
    postProcess fluke_id_spec "FLUKE,8808A" = .ok (.str "FLUKE,8808A") := by
  refine ⟨?_, rfl, rfl, rfl, by decide, rfl, rfl, rfl⟩
  simp only [postProcess, hf]

/-- C4 witness: the dcv_range read of "5V" through its own get_process. -/
theorem c4_get_postprocessing_witness :
    postProcess dcv_range_spec "5V" = .ok (dcv_range_get_process "5V") ∧
    postProcess dcv_range_spec "5V" = .ok (.str "5") :=
  ⟨(c4_get_postprocessing dcv_range_spec dcv_range_get_process "5V" rfl).1,
   (c4_get_postprocessing dcv_range_spec dcv_range_get_process "5V" rfl).2.1⟩

/-- C5: strict_range over [lo, hi] returns both endpoints and every value
inside the bounds unchanged, and fails with ValidationError on every value
strictly below lo or strictly above hi. -/
theorem c5_strict_range_endpoints (lo hi v : ℚ) (h : lo ≤ hi) :
    strict_range lo lo hi = some lo ∧
    strict_range hi lo hi = some hi ∧
    (lo ≤ v ∧ v ≤ hi → strict_range v lo hi = some v) ∧
    (v < lo ∨ hi < v → strict_range v lo hi = none) := by
  refine ⟨?_, ?_, fun hv => ?_, fun hv => ?_⟩
  · simp only [strict_range]
    rw [if_pos ⟨le_refl lo, h⟩]
  · simp only [strict_range]
    rw [if_pos ⟨h, le_refl hi⟩]
  · simp only [strict_range]
    rw [if_pos hv]
  · simp only [strict_range]
    rw [if_neg]
    rcases hv with hv | hv
    · exact fun hc => absurd hc.1 (not_le.mpr hv)
    · exact fun hc => absurd hc.2 (not_le.mpr hv)

/-- C5 witness: the [0, 30] bounds of VoltageChannel.voltage_setpoint and
L303SP.ovp_setpoint, probed at 31. -/
theorem c5_strict_range_endpoints_witness :
    strict_range 0 0 30 = some 0 ∧
    strict_range 30 0 30 = some 30 ∧
    ((0 : ℚ) ≤ 31 ∧ (31 : ℚ) ≤ 30 → strict_range 31 0 30 = some 31) ∧
    ((31 : ℚ) < 0 ∨ (30 : ℚ) < 31 → strict_range 31 0 30 = none) :=
  c5_strict_range_endpoints 0 30 31 (by norm_num)

/-- C6: truncated_range never fails: any value below lo returns lo, any
value above hi returns hi, any value inside the bounds is returned
unchanged; at the [500e-6, 10] bounds of VoltageChannel.scale, 20 clamps
to 10 and 0 clamps to 1/2000. -/
theorem c6_truncated_range_clamps (lo hi v : ℚ) (h : lo ≤ hi) :
    (truncated_range v lo hi).isSome = true ∧
    (v < lo → truncated_range v lo hi = some lo) ∧
    (hi < v → truncated_range v lo hi = some hi) ∧
    (lo ≤ v ∧ v ≤ hi → truncated_range v lo hi = some v) ∧
    truncated_range 20 dho800_scale_bounds.1 dho800_scale_bounds.2 = some 10 ∧
    truncated_range 0 dho800_scale_bounds.1 dho800_scale_bounds.2
      = some (1 / 2000) := by
  refine ⟨?_, fun hv => ?_, fun hv => ?_, fun hv => ?_, ?_, ?_⟩
  · simp only [truncated_range]
    split_ifs <;> rfl
  · simp only [truncated_range]
    rw [if_pos hv]
  · simp only [truncated_range]
    rw [if_neg (not_lt.mpr (le_trans h (le_of_lt hv))), if_pos hv]
  · simp only [truncated_range]
    rw [if_neg (not_lt.mpr hv.1), if_neg (not_lt.mpr hv.2)]
  · rw [show dho800_scale_bounds = ((1 / 2000 : ℚ), (10 : ℚ)) from rfl]
    simp only [truncated_range]
    norm_num
  · rw [show dho800_scale_bounds = ((1 / 2000 : ℚ), (10 : ℚ)) from rfl]
    simp only [truncated_range]
    norm_num

/-- C6 witness: the scale bounds [1/2000, 10], probed at 20. -/
theorem c6_truncated_range_clamps_witness :
    (truncated_range 20 (1 / 2000) 10).isSome = true ∧
    ((20 : ℚ) < 1 / 2000 → truncated_range 20 (1 / 2000) 10 = some (1 / 2000)) ∧
    ((10 : ℚ) < 20 → truncated_range 20 (1 / 2000) 10 = some 10) ∧
    ((1 : ℚ) / 2000 ≤ 20 ∧ (20 : ℚ) ≤ 10 → truncated_range 20 (1 / 2000) 10 = some 20) ∧
    truncated_range 20 dho800_scale_bounds.1 dho800_scale_bounds.2 = some 10 ∧
    truncated_range 0 dho800_scale_bounds.1 dho800_scale_bounds.2
      = some (1 / 2000) :=
  c6_truncated_range_clamps (1 / 2000) 10 20 (by norm_num)

/-- C7 counterexample: the set template of VoltageChannel.output_enabled
in rigol_dp900.py contains the channel placeholder exactly once, not more
than once as the claim asserts of it. -/
theorem c7_template_single_occurrence :
    renderRaw dp900_output_enabled_set = "OUTP:STAT CH{ch}, %d" ∧
    countCh "OUTP:STAT CH{ch}, %d" = 1 ∧
    dp900_output_enabled_set.count TemplTok.ch = 1 ∧
    ¬ 1 < countCh "OUTP:STAT CH{ch}, %d" := by
  refine ⟨rfl, by decide, by decide, by decide⟩

/-- C7 amended: formatting a channel template substitutes the channel
index for every placeholder occurrence — also when a template were to
contain several — and leaves every literal token unchanged; each cited
template contains the placeholder exactly once, as its rendering back to
the source spelling shows. -/
theorem c7_format_substitutes_ch (n : Nat) (a b : String) :
    formatTempl n [.lit a, .ch, .lit b] = a ++ (toString n ++ b) ∧
    formatTempl n [.lit a, .ch, .lit b, .ch]
      = a ++ (toString n ++ (b ++ toString n)) ∧
    formatTempl n dp900_output_enabled_set
      = "OUTP:STAT CH" ++ (toString n ++ ", %d") ∧
    formatTempl n dp900_output_enabled_get = "OUTP:STAT? CH" ++ toString n ∧
    formatTempl n it6322a_voltage_set
      = "APPL CH" ++ (toString n ++ "; VOLT %g") ∧
    formatTempl n it6322a_voltage_get
      = "APPL CH" ++ (toString n ++ "; VOLT?") ∧
    renderRaw dp900_output_enabled_set = "OUTP:STAT CH{ch}, %d" ∧
    renderRaw dp900_output_enabled_get = "OUTP:STAT? CH{ch}" ∧
    renderRaw it6322a_voltage_set = "APPL CH{ch}; VOLT %g" ∧
    renderRaw it6322a_voltage_get = "APPL CH{ch}; VOLT?" := by
  refine ⟨?_, ?_, ?_, ?_, ?_, ?_, rfl, rfl, rfl, rfl⟩ <;>
    simp [formatTempl, dp900_output_enabled_set, dp900_output_enabled_get,
      it6322a_voltage_set, it6322a_voltage_get]

/-- C8: overriding the dynamic voltage_setpoint bounds on one channel
instance changes validation only there: every other instance keeps the
declared class default [0, 30], the default itself is untouched, and after
narrowing instance 1 to [0, 5] the value 20 still validates on instance 2
while failing on instance 1. -/
theorem c8_dynamic_override_isolated (i j : Nat) (b : ℚ × ℚ) (h : j ≠ i) :
    overrideBounds (initialBounds dp900_voltage_default) i b j
      = dp900_voltage_default ∧
    overrideBounds (initialBounds dp900_voltage_default) i b i = b ∧
    dp900_voltage_default = (0, 30) ∧
    validateAt (overrideBounds (initialBounds dp900_voltage_default) 1 (0, 5) 2) 20
      = some 20 ∧
    validateAt (overrideBounds (initialBounds dp900_voltage_default) 1 (0, 5) 1) 20
      = none := by
  refine ⟨?_, ?_, rfl, ?_, ?_⟩
  · simp [overrideBounds, initialBounds, h]
  · simp [overrideBounds]
  · simp only [validateAt, overrideBounds, initialBounds, dp900_voltage_default,
      strict_range]
    norm_num
  · simp only [validateAt, overrideBounds, initialBounds, dp900_voltage_default,
      strict_range]
    norm_num

/-- C8 witness: instance 1 overridden to [0, 5], instance 2 inspected. -/
theorem c8_dynamic_override_isolated_witness :
    overrideBounds (initialBounds dp900_voltage_default) 1 (0, 5) 2
      = dp900_voltage_default ∧
    overrideBounds (initialBounds dp900_voltage_default) 1 (0, 5) 1 = (0, 5) ∧
    dp900_voltage_default = (0, 30) ∧
    validateAt (overrideBounds (initialBounds dp900_voltage_default) 1 (0, 5) 2) 20
      = some 20 ∧
    validateAt (overrideBounds (initialBounds dp900_voltage_default) 1 (0, 5) 1) 20
      = none :=
  c8_dynamic_override_isolated 1 2 (0, 5) (by decide)

/-- C9: constructing IT6322A without an explicit name yields the default
name "Rigol DG1022U" declared in its constructor, a name that is not
ITECH-derived. -/
theorem c9_it6322a_default_name :
    (it6322a_init none).name = "Rigol DG1022U" ∧
    containsPat (it6322a_init none).name "ITECH" = false ∧
    containsPat (it6322a_init none).name "IT6322" = false ∧
    containsPat (it6322a_init none).name "Rigol DG1022U" = true := by
  refine ⟨rfl, by decide, by decide, by decide⟩

/-- C10: check_set_errors and check_get_errors of Fluke8808A each consume
exactly one pending reply line and return the empty error list whatever
that line contains; with no line available the transport failure
propagates unchanged. -/
theorem c10_fluke_error_hooks (l : String) (rest : List String) :
    fluke_check_set_errors (l :: rest) = .ok ([], rest) ∧
    fluke_check_get_errors (l :: rest) = .ok ([], rest) ∧
    fluke_check_set_errors [] = .error .timeout ∧
    fluke_check_get_errors [] = .error .timeout :=
  ⟨rfl, rfl, rfl, rfl⟩
